import Mathlib

/-!
Verification of the Mobile Repair Assistant backend (`main.py`, `schemas.py`).

The embedding models a stored record (a Mongo document) as an ordered
association list of field names to `Value`s, mirroring a Python `dict`
(insertion-ordered; assignment to an existing key overwrites in place,
assignment to a fresh key appends).  Store-native types (`ObjectId`,
`datetime`) are constructors of `Value` carrying their string renderings.
The serializer `_serialize`, the route handlers and the seed routine are
translated from `main.py`; the document-store adapter (`database.py` is
not among the sources, only its callers are) is modelled from the spec.
-/

set_option maxHeartbeats 1000000

namespace MobileRepair

/-- A document field value.  `vObjectId` carries the hex string that
`str(ObjectId)` renders; `vDatetime` carries both the `str(v)` and the
`v.isoformat()` renderings, which is all the code ever observes of a
datetime.  `vDoc` is a nested document (e.g. a solution step). -/
inductive Value where
  | vStr (s : String)
  | vInt (n : Int)
  | vBool (b : Bool)
  | vNull
  | vObjectId (hex : String)
  | vDatetime (strRep isoRep : String)
  | vList (xs : List Value)
  | vDoc (fields : List (String × Value))

/-- A document: an insertion-ordered mapping from field names to values. -/
abbrev Doc := List (String × Value)

mutual

/-- Structural equality test on values (Mongo value equality). -/
def valueBeq : Value → Value → Bool
  | .vStr a, .vStr b => a == b
  | .vInt a, .vInt b => a == b
  | .vBool a, .vBool b => a == b
  | .vNull, .vNull => true
  | .vObjectId a, .vObjectId b => a == b
  | .vDatetime a b, .vDatetime c d => a == c && b == d
  | .vList xs, .vList ys => valueListBeq xs ys
  | .vDoc xs, .vDoc ys => fieldListBeq xs ys
  | _, _ => false

/-- Elementwise equality test on value lists. -/
def valueListBeq : List Value → List Value → Bool
  | [], [] => true
  | x :: xs, y :: ys => valueBeq x y && valueListBeq xs ys
  | _, _ => false

/-- Elementwise equality test on field lists. -/
def fieldListBeq : List (String × Value) → List (String × Value) → Bool
  | [], [] => true
  | (k, v) :: xs, (l, w) :: ys => k == l && valueBeq v w && fieldListBeq xs ys
  | _, _ => false

end

mutual

/-- `valueBeq` decides propositional equality. -/
def valueBeq_iff : ∀ a b : Value, valueBeq a b = true ↔ a = b
  | .vStr _, .vStr _ => by simp [valueBeq]
  | .vInt _, .vInt _ => by simp [valueBeq]
  | .vBool _, .vBool _ => by simp [valueBeq]
  | .vNull, .vNull => by simp [valueBeq]
  | .vObjectId _, .vObjectId _ => by simp [valueBeq]
  | .vDatetime _ _, .vDatetime _ _ => by simp [valueBeq]
  | .vList xs, .vList ys => by
      simp only [valueBeq, Value.vList.injEq]
      exact valueListBeq_iff xs ys
  | .vDoc xs, .vDoc ys => by
      simp only [valueBeq, Value.vDoc.injEq]
      exact fieldListBeq_iff xs ys
  | .vStr _, .vInt _ => by simp [valueBeq]
  | .vStr _, .vBool _ => by simp [valueBeq]
  | .vStr _, .vNull => by simp [valueBeq]
  | .vStr _, .vObjectId _ => by simp [valueBeq]
  | .vStr _, .vDatetime _ _ => by simp [valueBeq]
  | .vStr _, .vList _ => by simp [valueBeq]
  | .vStr _, .vDoc _ => by simp [valueBeq]
  | .vInt _, .vStr _ => by simp [valueBeq]
  | .vInt _, .vBool _ => by simp [valueBeq]
  | .vInt _, .vNull => by simp [valueBeq]
  | .vInt _, .vObjectId _ => by simp [valueBeq]
  | .vInt _, .vDatetime _ _ => by simp [valueBeq]
  | .vInt _, .vList _ => by simp [valueBeq]
  | .vInt _, .vDoc _ => by simp [valueBeq]
  | .vBool _, .vStr _ => by simp [valueBeq]
  | .vBool _, .vInt _ => by simp [valueBeq]
  | .vBool _, .vNull => by simp [valueBeq]
  | .vBool _, .vObjectId _ => by simp [valueBeq]
  | .vBool _, .vDatetime _ _ => by simp [valueBeq]
  | .vBool _, .vList _ => by simp [valueBeq]
  | .vBool _, .vDoc _ => by simp [valueBeq]
  | .vNull, .vStr _ => by simp [valueBeq]
  | .vNull, .vInt _ => by simp [valueBeq]
  | .vNull, .vBool _ => by simp [valueBeq]
  | .vNull, .vObjectId _ => by simp [valueBeq]
  | .vNull, .vDatetime _ _ => by simp [valueBeq]
  | .vNull, .vList _ => by simp [valueBeq]
  | .vNull, .vDoc _ => by simp [valueBeq]
  | .vObjectId _, .vStr _ => by simp [valueBeq]
  | .vObjectId _, .vInt _ => by simp [valueBeq]
  | .vObjectId _, .vBool _ => by simp [valueBeq]
  | .vObjectId _, .vNull => by simp [valueBeq]
  | .vObjectId _, .vDatetime _ _ => by simp [valueBeq]
  | .vObjectId _, .vList _ => by simp [valueBeq]
  | .vObjectId _, .vDoc _ => by simp [valueBeq]
  | .vDatetime _ _, .vStr _ => by simp [valueBeq]
  | .vDatetime _ _, .vInt _ => by simp [valueBeq]
  | .vDatetime _ _, .vBool _ => by simp [valueBeq]
  | .vDatetime _ _, .vNull => by simp [valueBeq]
  | .vDatetime _ _, .vObjectId _ => by simp [valueBeq]
  | .vDatetime _ _, .vList _ => by simp [valueBeq]
  | .vDatetime _ _, .vDoc _ => by simp [valueBeq]
  | .vList _, .vStr _ => by simp [valueBeq]
  | .vList _, .vInt _ => by simp [valueBeq]
  | .vList _, .vBool _ => by simp [valueBeq]
  | .vList _, .vNull => by simp [valueBeq]
  | .vList _, .vObjectId _ => by simp [valueBeq]
  | .vList _, .vDatetime _ _ => by simp [valueBeq]
  | .vList _, .vDoc _ => by simp [valueBeq]
  | .vDoc _, .vStr _ => by simp [valueBeq]
  | .vDoc _, .vInt _ => by simp [valueBeq]
  | .vDoc _, .vBool _ => by simp [valueBeq]
  | .vDoc _, .vNull => by simp [valueBeq]
  | .vDoc _, .vObjectId _ => by simp [valueBeq]
  | .vDoc _, .vDatetime _ _ => by simp [valueBeq]
  | .vDoc _, .vList _ => by simp [valueBeq]

/-- `valueListBeq` decides propositional equality. -/
def valueListBeq_iff : ∀ xs ys : List Value, valueListBeq xs ys = true ↔ xs = ys
  | [], [] => by simp [valueListBeq]
  | [], _ :: _ => by simp [valueListBeq]
  | _ :: _, [] => by simp [valueListBeq]
  | x :: xs, y :: ys => by
      simp only [valueListBeq, Bool.and_eq_true, List.cons.injEq]
      exact and_congr (valueBeq_iff x y) (valueListBeq_iff xs ys)

/-- `fieldListBeq` decides propositional equality. -/
def fieldListBeq_iff : ∀ xs ys : List (String × Value), fieldListBeq xs ys = true ↔ xs = ys
  | [], [] => by simp [fieldListBeq]
  | [], _ :: _ => by simp [fieldListBeq]
  | _ :: _, [] => by simp [fieldListBeq]
  | (k, v) :: xs, (l, w) :: ys => by
      simp only [fieldListBeq, Bool.and_eq_true, List.cons.injEq, Prod.mk.injEq, beq_iff_eq]
      exact and_congr (and_congr Iff.rfl (valueBeq_iff v w)) (fieldListBeq_iff xs ys)

end

instance : DecidableEq Value := fun a b => decidable_of_iff _ (valueBeq_iff a b)

/-- Python `str(v)` for the value kinds a document can hold.  Exact for
strings, ObjectIds and datetimes (which carry their renderings); the
container renderings are abbreviated, no code path under verification
inspects them. -/
def pyStr : Value → String
  | .vStr s => s
  | .vInt n => toString n
  | .vBool b => cond b "True" "False"
  | .vNull => "None"
  | .vObjectId hex => hex
  | .vDatetime strRep _ => strRep
  | .vList _ => "[...]"
  | .vDoc _ => "\x7b...\x7d"

/-- Python dict assignment `d[k] = v`: overwrite in place if the key is
present, append otherwise. -/
def dictSet (d : Doc) (k : String) (v : Value) : Doc :=
  if d.any (fun p => p.1 = k) then
    d.map (fun p => if p.1 = k then (k, v) else p)
  else
    d ++ [(k, v)]

/-- Python dict lookup / Mongo field access (first binding wins; a real
dict has unique keys, so first = only). -/
def lookupField (d : Doc) (k : String) : Option Value :=
  match d with
  | [] => none
  | (kv) :: rest => if kv.1 = k then some kv.2 else lookupField rest k

/-- One element of the list branch of `_serialize` (main.py line 33):
`str(x) if x.__class__.__name__ == "ObjectId" else x`. -/
def serializeListElem : Value → Value
  | .vObjectId hex => .vStr hex
  | x => x

/-- The value transformation `_serialize` applies to a field not named
`"_id"` (main.py lines 29-35): a datetime becomes its ISO string, a list
is mapped elementwise, everything else passes through. -/
def serializeValue : Value → Value
  | .vDatetime _ isoRep => .vStr isoRep
  | .vList xs => .vList (xs.map serializeListElem)
  | v => v

/-- One loop iteration of `_serialize` (main.py lines 26-35): the field
named `"_id"` is written to key `"id"` as `str(v)`, any other field is
written under its own key with `serializeValue` applied. -/
def serializeField (out : Doc) (kv : String × Value) : Doc :=
  if kv.1 = "_id" then dictSet out "id" (.vStr (pyStr kv.2))
  else dictSet out kv.1 (serializeValue kv.2)

/-- `_serialize` from main.py lines 23-36: fold the per-field writes over
the input document, starting from the empty output dict. -/
def _serialize (doc : Doc) : Doc := doc.foldl serializeField []

/-- The output key `_serialize` uses for an input field name. -/
def keyTrans (k : String) : String := if k = "_id" then "id" else k

/-- The output entry `_serialize` produces from one input entry. -/
def serializeEntry (kv : String × Value) : String × Value :=
  if kv.1 = "_id" then ("id", .vStr (pyStr kv.2)) else (kv.1, serializeValue kv.2)

/-- Is the value of the store-native identifier type? -/
def isObjectIdVal : Value → Bool
  | .vObjectId _ => true
  | _ => false

/-- Is the value a timestamp? -/
def isDatetimeVal : Value → Bool
  | .vDatetime _ _ => true
  | _ => false

/-- Does the value hold a list with a store-native identifier element? -/
def hasOidElem : Value → Bool
  | .vList xs => xs.any isObjectIdVal
  | _ => false

/-- An output entry of the serializer: its key is not `"_id"` and it is a
fixed point of `serializeEntry`. -/
def StableEntry (kv : String × Value) : Prop :=
  kv.1 ≠ "_id" ∧ serializeEntry kv = kv

/-- Modelled from the spec: the Document Store Adapter's filter semantics
(§4.2, `database.py` is not among the sources) — a filter is "a mapping of
field-equality constraints (empty mapping = all records)"; a document
matches when every constrained field is present with the required value. -/
def docMatches (d : Doc) (filt : List (String × Value)) : Bool :=
  filt.all fun kv =>
    match lookupField d kv.1 with
    | some w => valueBeq w kv.2
    | none => false

/-- Modelled from the spec: the Document Store Adapter's
`query(collectionName, filter) -> sequence of records` (§4.2), returning
the stored records that satisfy the field-equality filter. -/
def get_documents (coll : List Doc) (filt : List (String × Value)) : List Doc :=
  coll.filter (fun d => docMatches d filt)

/-- `list_guides` from main.py lines 94-98: build the filter from the
optional `category_key` query parameter by Python truthiness (absent
parameter and empty string both give the empty filter), query the
`solutionguide` collection, serialize each result. -/
def list_guides (solutionguide : List Doc) (category_key : Option String) : List Doc :=
  let filt : List (String × Value) :=
    match category_key with
    | some ck => if ck = "" then [] else [("category_key", Value.vStr ck)]
    | none => []
  (get_documents solutionguide filt).map _serialize

/-- The two collections the seed routine touches. -/
structure DB where
  issuecategory : List Doc
  solutionguide : List Doc

/-- The four `IssueCategory` seed records of main.py lines 124-129, as the
field mappings the store receives (field order of `schemas.IssueCategory`). -/
def categoriesSeed : List Doc :=
  [ [("key", .vStr "icloud"), ("title", .vStr "iCloud/Activation Lock"),
     ("description", .vStr "Help with activation lock and iCloud lock issues"),
     ("icon", .vStr "cloud")],
    [("key", .vStr "frp"), ("title", .vStr "FRP (Factory Reset Protection)"),
     ("description", .vStr "Google account lock/FRP bypass help"),
     ("icon", .vStr "shield")],
    [("key", .vStr "screen-lock"), ("title", .vStr "Screen/Pin/Pattern Lock"),
     ("description", .vStr "Forgotten screen lock resolutions"),
     ("icon", .vStr "lock")],
    [("key", .vStr "bootloop"), ("title", .vStr "Bootloop/No Boot"),
     ("description", .vStr "Device stuck on boot logo or not starting"),
     ("icon", .vStr "refresh")] ]

/-- The three `SolutionGuide` seed records of main.py lines 134-171, as the
field mappings the store receives (field order of `schemas.SolutionGuide`). -/
def guidesSeed : List Doc :=
  [ [("title", .vStr "Check Activation Lock Status"),
     ("category_key", .vStr "icloud"),
     ("devices", .vList [.vStr "iPhone 8+", .vStr "iPad (2018+)"]),
     ("summary", .vStr "Verify activation lock status and prepare ownership proof"),
     ("steps", .vList
       [ .vDoc [("title", .vStr "Find IMEI/Serial"),
                ("details", .vStr "From the SIM tray or box. If device is on, go to Settings > General > About.")],
         .vDoc [("title", .vStr "Check Online"),
                ("details", .vStr "Use Apple's support to check coverage and activation lock status.")],
         .vDoc [("title", .vStr "Contact Original Owner"),
                ("details", .vStr "Request remote removal via iCloud.com > Find My.")] ]),
     ("difficulty", .vStr "medium")],
    [("title", .vStr "FRP Removal Preparation"),
     ("category_key", .vStr "frp"),
     ("devices", .vList [.vStr "Samsung Galaxy S9+", .vStr "Pixel 3+"]),
     ("summary", .vStr "Collect details and follow safe FRP bypass preparation steps"),
     ("steps", .vList
       [ .vDoc [("title", .vStr "Know the Patch Level"),
                ("details", .vStr "Find the Android security patch level to choose a compatible method.")],
         .vDoc [("title", .vStr "Network Ready"),
                ("details", .vStr "Ensure stable Wi‑Fi; some steps require SIM with PIN.")],
         .vDoc [("title", .vStr "OTG/PC Tools"),
                ("details", .vStr "Have a USB cable and a computer ready for ADB-based methods.")] ]),
     ("difficulty", .vStr "hard")],
    [("title", .vStr "Forgot Screen PIN on Android"),
     ("category_key", .vStr "screen-lock"),
     ("devices", .vList [.vStr "Android 8+"]),
     ("summary", .vStr "Try non-destructive options before reset"),
     ("steps", .vList
       [ .vDoc [("title", .vStr "Find My Device Unlock"),
                ("details", .vStr "If enabled, use google.com/android/find to attempt unlock or reset.")],
         .vDoc [("title", .vStr "OEM Account Unlock"),
                ("details", .vStr "Some vendors allow remote unlock after verification.")],
         .vDoc [("title", .vStr "Backup then Reset"),
                ("details", .vStr "If nothing works, use recovery mode to factory reset (will erase data).")] ]),
     ("difficulty", .vStr "easy")] ]

/-- The body of `seed_sample_data` after the availability guard (main.py
lines 122-175): each collection is seeded with its literal record list iff
its current count is zero; inserts append in order (the store adapter's
`insert` persists one record per call, modelled from the spec §4.2). -/
def seedDB (d : DB) : DB :=
  let d1 := if d.issuecategory.length == 0
            then { d with issuecategory := d.issuecategory ++ categoriesSeed }
            else d
  let d2 := if d1.solutionguide.length == 0
            then { d1 with solutionguide := d1.solutionguide ++ guidesSeed }
            else d1
  d2

/-- `seed_sample_data` from main.py lines 117-175: an uninitialized store
handle fails with HTTP 500 "Database not available" before anything else;
otherwise both seed steps run and the routine succeeds. -/
def seed_sample_data (db : Option DB) : Except (Nat × String) DB :=
  match db with
  | none => .error (500, "Database not available")
  | some d => .ok (seedDB d)

/-- The observable state of the store handle as `/test` probes it: the
`name` attribute when present, and the outcome of `list_collection_names()`
(either the collection names or the raised exception's message). -/
structure DBConn where
  name : Option String
  listCollectionNames : Except String (List String)

/-- The response dict assembled by `test_database` (main.py lines 52-59). -/
structure TestResponse where
  backend : String
  database : String
  database_url : Option String
  database_name : Option String
  connection_status : String
  collections : List String

/-- Python string slicing `s[:n]`: the first `n` characters. -/
def pyTrunc (s : String) (n : Nat) : String := (s.toList.take n).asString

/-- `test_database` from main.py lines 49-83: build the pessimistic
response, upgrade it per sub-check, degrade the `database` field to a
status string when `list_collection_names` raises (cause truncated to 50
characters), and overwrite the url/name fields from the environment
presence checks (`urlSet`, `nameSet` model `os.getenv` at lines 80-81). -/
def test_database (db : Option DBConn) (urlSet nameSet : Bool) : TestResponse :=
  let r0 : TestResponse :=
    { backend := "✅ Running", database := "❌ Not Available",
      database_url := none, database_name := none,
      connection_status := "Not Connected", collections := [] }
  let r1 :=
    match db with
    | some conn =>
      let r :=
        { r0 with database := "✅ Available", database_url := some "✅ Configured",
                  database_name := some (match conn.name with
                                         | some n => n
                                         | none => "✅ Connected"),
                  connection_status := "Connected" }
      match conn.listCollectionNames with
      | .ok cols =>
          { r with collections := cols.take 10, database := "✅ Connected & Working" }
      | .error e =>
          { r with database := "⚠️  Connected but Error: " ++ pyTrunc e 50 }
    | none => { r0 with database := "⚠️  Available but not initialized" }
  { r1 with database_url := some (if urlSet then "✅ Set" else "❌ Not Set"),
            database_name := some (if nameSet then "✅ Set" else "❌ Not Set") }

/-! ### Serializer lemmas -/

theorem serializeEntry_fst (kv : String × Value) : (serializeEntry kv).1 = keyTrans kv.1 := by
  by_cases h : kv.1 = "_id" <;> simp [serializeEntry, keyTrans, h]

theorem keyTrans_ne_id (k : String) : keyTrans k ≠ "_id" := by
  by_cases h : k = "_id" <;> simp [keyTrans, h]

theorem serializeField_eq (out : Doc) (kv : String × Value) :
    serializeField out kv = dictSet out (keyTrans kv.1) (serializeEntry kv).2 := by
  by_cases h : kv.1 = "_id" <;> simp [serializeField, serializeEntry, keyTrans, h]

theorem dictSet_append {d : Doc} {k : String} (v : Value) (h : k ∉ d.map Prod.fst) :
    dictSet d k v = d ++ [(k, v)] := by
  have hcond : ¬ (d.any (fun p => p.1 = k) = true) := by
    simp only [List.any_eq_true, decide_eq_true_eq, not_exists]
    intro p hcon
    obtain ⟨hp, he⟩ := hcon
    exact h (he ▸ List.mem_map_of_mem Prod.fst hp)
  simp [dictSet, hcond]

theorem mem_dictSet {d : Doc} {k : String} {v : Value} {x : String × Value}
    (hx : x ∈ dictSet d k v) : x ∈ d ∨ x = (k, v) := by
  unfold dictSet at hx
  split at hx
  · obtain ⟨p, hp, he⟩ := List.mem_map.1 hx
    by_cases hpk : p.1 = k
    · right; rw [← he]; simp [hpk]
    · left; rw [← he]; simp [hpk]; exact hp
  · rcases List.mem_append.1 hx with h | h
    · exact Or.inl h
    · right; simpa using h

theorem keys_dictSet (d : Doc) (k : String) (v : Value) :
    (dictSet d k v).map Prod.fst = d.map Prod.fst ∨
    (dictSet d k v).map Prod.fst = d.map Prod.fst ++ [k] := by
  unfold dictSet
  split
  · left
    rw [List.map_map]
    apply List.map_congr_left
    intro p _
    by_cases hpk : p.1 = k <;> simp [hpk]
  · right; simp

theorem dictSet_keys_nodup {d : Doc} (hnd : (d.map Prod.fst).Nodup) (k : String) (v : Value) :
    ((dictSet d k v).map Prod.fst).Nodup := by
  rcases keys_dictSet d k v with h | h
  · rw [h]; exact hnd
  · rw [h]
    by_cases hmem : k ∈ d.map Prod.fst
    · exfalso
      have hcond : d.any (fun p => p.1 = k) = true := by
        simp only [List.any_eq_true, decide_eq_true_eq]
        obtain ⟨p, hp, he⟩ := List.mem_map.1 hmem
        exact ⟨p, hp, he⟩
      have : (dictSet d k v).map Prod.fst = d.map Prod.fst := by
        unfold dictSet
        rw [if_pos hcond, List.map_map]
        apply List.map_congr_left
        intro p _
        by_cases hpk : p.1 = k <;> simp [hpk]
      rw [this] at h
      have := congrArg List.length h
      simp at this
    · simp only [List.nodup_append, List.nodup_cons]
      refine ⟨hnd, by simp, ?_⟩
      intro a ha hb
      simp at hb
      exact hmem (hb ▸ ha)

theorem foldl_serializeField_append :
    ∀ (d acc : Doc), (acc.map Prod.fst ++ d.map (fun kv => keyTrans kv.1)).Nodup →
      d.foldl serializeField acc = acc ++ d.map serializeEntry
  | [], acc, _ => by simp
  | kv :: rest, acc, h => by
      have hk : keyTrans kv.1 ∉ acc.map Prod.fst := by
        rw [List.nodup_append] at h
        exact fun hmem => h.2.2 hmem (by simp)
      have hstep : serializeField acc kv = acc ++ [serializeEntry kv] := by
        rw [serializeField_eq, ← serializeEntry_fst kv]
        exact dictSet_append _ (by rw [serializeEntry_fst]; exact hk)
      have hnext : ((acc ++ [serializeEntry kv]).map Prod.fst ++
          rest.map (fun kv => keyTrans kv.1)).Nodup := by
        have he : (acc ++ [serializeEntry kv]).map Prod.fst =
            acc.map Prod.fst ++ [keyTrans kv.1] := by
          simp [serializeEntry_fst]
        rw [he, List.append_assoc, List.singleton_append]
        simpa using h
      calc (kv :: rest).foldl serializeField acc
          = rest.foldl serializeField (serializeField acc kv) := by simp [List.foldl_cons]
        _ = rest.foldl serializeField (acc ++ [serializeEntry kv]) := by rw [hstep]
        _ = (acc ++ [serializeEntry kv]) ++ rest.map serializeEntry :=
            foldl_serializeField_append rest (acc ++ [serializeEntry kv]) hnext
        _ = acc ++ (kv :: rest).map serializeEntry := by simp

/-- When the transformed field names are pairwise distinct (true of every
real dict without both an `_id` and an `id` field), `_serialize` is the
entrywise map of `serializeEntry`. -/
theorem serialize_eq_map {d : Doc} (h : (d.map (fun kv => keyTrans kv.1)).Nodup) :
    _serialize d = d.map serializeEntry := by
  have := foldl_serializeField_append d [] (by simpa using h)
  simpa [_serialize] using this

theorem serializeListElem_idem (x : Value) :
    serializeListElem (serializeListElem x) = serializeListElem x := by
  cases x <;> rfl

theorem map_serializeListElem_idem (xs : List Value) :
    (xs.map serializeListElem).map serializeListElem = xs.map serializeListElem := by
  induction xs with
  | nil => rfl
  | cons x xs ih => simp [serializeListElem_idem, ih]

theorem serializeValue_idem (v : Value) :
    serializeValue (serializeValue v) = serializeValue v := by
  cases v with
  | vList xs => simp only [serializeValue, map_serializeListElem_idem]
  | vDatetime a b => rfl
  | vStr s => rfl
  | vInt n => rfl
  | vBool b => rfl
  | vNull => rfl
  | vObjectId hex => rfl
  | vDoc fields => rfl

theorem serializeEntry_stable (kv : String × Value) : StableEntry (serializeEntry kv) := by
  constructor
  · rw [serializeEntry_fst]; exact keyTrans_ne_id kv.1
  · by_cases h : kv.1 = "_id"
    · simp [serializeEntry, serializeValue, h]
    · simp [serializeEntry, h, serializeValue_idem]

theorem foldl_serializeField_stable :
    ∀ (d acc : Doc), (∀ x ∈ acc, StableEntry x) →
      ∀ x ∈ d.foldl serializeField acc, StableEntry x
  | [], _, hacc, x, hx => hacc x hx
  | kv :: rest, acc, hacc, x, hx => by
      refine foldl_serializeField_stable rest (serializeField acc kv) ?_ x (by simpa using hx)
      intro y hy
      rw [serializeField_eq] at hy
      rcases mem_dictSet hy with h | h
      · exact hacc y h
      · rw [h, ← serializeEntry_fst]
        exact serializeEntry_stable kv

theorem mem_serialize_stable {d : Doc} {x : String × Value} (hx : x ∈ _serialize d) :
    StableEntry x :=
  foldl_serializeField_stable d [] (by simp) x hx

theorem foldl_serializeField_keys :
    ∀ (d acc : Doc), (acc.map Prod.fst).Nodup ∧ "_id" ∉ acc.map Prod.fst →
      ((d.foldl serializeField acc).map Prod.fst).Nodup ∧
        "_id" ∉ (d.foldl serializeField acc).map Prod.fst
  | [], _, hacc => hacc
  | kv :: rest, acc, hacc => by
      refine foldl_serializeField_keys rest (serializeField acc kv) ?_
      constructor
      · rw [serializeField_eq]
        exact dictSet_keys_nodup hacc.1 _ _
      · rw [serializeField_eq]
        intro hmem
        rcases keys_dictSet acc (keyTrans kv.1) (serializeEntry kv).2 with h | h
        · exact hacc.2 (h ▸ hmem)
        · rw [h] at hmem
          rcases List.mem_append.1 hmem with h1 | h1
          · exact hacc.2 h1
          · simp at h1
            exact keyTrans_ne_id kv.1 h1.symm

theorem serialize_keys_nodup (d : Doc) : ((_serialize d).map Prod.fst).Nodup :=
  (foldl_serializeField_keys d [] (by simp)).1

theorem serialize_no_id_key (d : Doc) : "_id" ∉ (_serialize d).map Prod.fst :=
  (foldl_serializeField_keys d [] (by simp)).2

theorem serializeListElem_eq_self {x : Value} (h : isObjectIdVal x = false) :
    serializeListElem x = x := by
  cases x <;> simp_all [serializeListElem, isObjectIdVal]

theorem serializeValue_eq_self {v : Value} (h2 : isDatetimeVal v = false)
    (h3 : hasOidElem v = false) : serializeValue v = v := by
  cases v with
  | vDatetime a b => simp [isDatetimeVal] at h2
  | vList xs =>
      simp only [serializeValue, Value.vList.injEq]
      conv_rhs => rw [← List.map_id xs]
      apply List.map_congr_left
      intro x hx
      simp only [hasOidElem, List.any_eq_true, not_exists] at h3
      have : isObjectIdVal x = false := by
        by_contra hc
        simp only [Bool.not_eq_false] at hc
        have : xs.any isObjectIdVal = true := List.any_eq_true.2 ⟨x, hx, hc⟩
        rw [h3] at this
        exact Bool.false_ne_true this
      simp [serializeListElem_eq_self this]
  | vStr s => rfl
  | vInt n => rfl
  | vBool b => rfl
  | vNull => rfl
  | vObjectId hex => rfl
  | vDoc fields => rfl

/-! ### Claim C3 -/

/-- **C3** (confirmed).  For every record, applying the serializer twice
yields the same output as applying it once: string fields of an
already-serialized mapping are not re-interpreted as identifiers or
timestamps. -/
theorem C3_serialize_idempotent (d : Doc) : _serialize (_serialize d) = _serialize d := by
  have hkeys : ((_serialize d).map (fun kv => keyTrans kv.1)).Nodup := by
    have h1 : (_serialize d).map (fun kv => keyTrans kv.1) = (_serialize d).map Prod.fst :=
      List.map_congr_left fun kv hkv => by
        simp [keyTrans, (mem_serialize_stable hkv).1]
    rw [h1]
    exact serialize_keys_nodup d
  rw [serialize_eq_map hkeys]
  conv_rhs => rw [← List.map_id (_serialize d)]
  exact List.map_congr_left fun kv hkv => (mem_serialize_stable hkv).2

theorem C3_witness :
    _serialize (_serialize
        [("_id", Value.vObjectId "507f1f77bcf86cd799439011"),
         ("created", Value.vDatetime "2024-01-02 03:04:05" "2024-01-02T03:04:05"),
         ("tags", Value.vList [Value.vObjectId "a1", Value.vStr "frp"])]) =
      _serialize
        [("_id", Value.vObjectId "507f1f77bcf86cd799439011"),
         ("created", Value.vDatetime "2024-01-02 03:04:05" "2024-01-02T03:04:05"),
         ("tags", Value.vList [Value.vObjectId "a1", Value.vStr "frp"])] :=
  C3_serialize_idempotent
    [("_id", Value.vObjectId "507f1f77bcf86cd799439011"),
     ("created", Value.vDatetime "2024-01-02 03:04:05" "2024-01-02T03:04:05"),
     ("tags", Value.vList [Value.vObjectId "a1", Value.vStr "frp"])]

/-! ### Claim C4 -/

/-- **C4** (refuted as stated).  The record `{"_id": "x"}` holds no
store-native identifier value and no timestamp value, yet the serializer
renames its `"_id"` field to `"id"`, so it is not the identity there: the
serializer dispatches on the field *name* `_id`, not on the value's type. -/
theorem C4_counterexample :
    (∀ kv ∈ ([("_id", Value.vStr "x")] : Doc),
        isObjectIdVal kv.2 = false ∧ isDatetimeVal kv.2 = false) ∧
      _serialize [("_id", Value.vStr "x")] ≠ [("_id", Value.vStr "x")] := by
  decide

/-- **C4** (amended).  For every record (distinct field names) that has no
field *named* `_id`, no field holding a timestamp value, and no list-valued
field containing a store-native identifier element, the serializer is the
identity transform. -/
theorem C4_amended_serialize_identity (d : Doc) (hnd : (d.map Prod.fst).Nodup)
    (h : ∀ kv ∈ d, kv.1 ≠ "_id" ∧ isDatetimeVal kv.2 = false ∧ hasOidElem kv.2 = false) :
    _serialize d = d := by
  have hkeys : (d.map (fun kv => keyTrans kv.1)).Nodup := by
    have h1 : d.map (fun kv => keyTrans kv.1) = d.map Prod.fst :=
      List.map_congr_left fun kv hkv => by simp [keyTrans, (h kv hkv).1]
    rw [h1]
    exact hnd
  rw [serialize_eq_map hkeys]
  conv_rhs => rw [← List.map_id d]
  apply List.map_congr_left
  intro kv hkv
  obtain ⟨h1, h2, h3⟩ := h kv hkv
  simp only [serializeEntry, if_neg h1, id, serializeValue_eq_self h2 h3]

theorem C4_amended_witness :
    _serialize [("key", Value.vStr "icloud"), ("position", Value.vInt 3)] =
      [("key", Value.vStr "icloud"), ("position", Value.vInt 3)] :=
  C4_amended_serialize_identity _ (by decide) (by decide)

/-! ### Claim C5 -/

/-- **C5** (refuted as stated).  A field named `owner` holding a
store-native identifier is passed through unchanged — it is neither renamed
to `id` nor rendered as a string: the serializer renames by the field name
`_id`, not by the value's type. -/
theorem C5_counterexample :
    _serialize [("owner", Value.vObjectId "507f191e810c19729de860ea")] =
        [("owner", Value.vObjectId "507f191e810c19729de860ea")] ∧
      ("id", Value.vStr "507f191e810c19729de860ea") ∉
        _serialize [("owner", Value.vObjectId "507f191e810c19729de860ea")] := by
  decide

/-- **C5** (amended).  For every record with distinct field names and no
field already named `id`: the field *named* `_id` (whatever its value's
type) is emitted as field `id` holding the string rendering of its value,
and a store-native identifier value under any other field name passes
through unchanged. -/
theorem C5_amended_id_rename (d : Doc) (hnd : (d.map Prod.fst).Nodup)
    (hid : "id" ∉ d.map Prod.fst) :
    (∀ v, ("_id", v) ∈ d → ("id", Value.vStr (pyStr v)) ∈ _serialize d) ∧
    (∀ k hex, (k, Value.vObjectId hex) ∈ d → k ≠ "_id" →
      (k, Value.vObjectId hex) ∈ _serialize d) := by
  have hkeys : (d.map (fun kv => keyTrans kv.1)).Nodup := by
    have h1 : d.map (fun kv => keyTrans kv.1) = (d.map Prod.fst).map keyTrans :=
      (List.map_map keyTrans Prod.fst d).symm
    rw [h1]
    apply hnd.map_on
    intro x hx y hy hxy
    simp only [keyTrans] at hxy
    by_cases hx1 : x = "_id"
    · by_cases hy1 : y = "_id"
      · rw [hx1, hy1]
      · rw [if_pos hx1, if_neg hy1] at hxy
        exact absurd (hxy.symm ▸ hy) hid
    · by_cases hy1 : y = "_id"
      · rw [if_neg hx1, if_pos hy1] at hxy
        exact absurd (hxy ▸ hx) hid
      · rwa [if_neg hx1, if_neg hy1] at hxy
  rw [serialize_eq_map hkeys]
  constructor
  · intro v hv
    have := List.mem_map_of_mem serializeEntry hv
    simpa [serializeEntry] using this
  · intro k hex hkv hk
    have := List.mem_map_of_mem serializeEntry hkv
    simpa [serializeEntry, serializeValue, if_neg hk] using this

theorem C5_amended_witness :
    ("id", Value.vStr "507f191e810c19729de860ea") ∈
        _serialize [("_id", Value.vObjectId "507f191e810c19729de860ea"),
                    ("owner", Value.vObjectId "a1b2")] ∧
      ("owner", Value.vObjectId "a1b2") ∈
        _serialize [("_id", Value.vObjectId "507f191e810c19729de860ea"),
                    ("owner", Value.vObjectId "a1b2")] :=
  ⟨(C5_amended_id_rename
      [("_id", Value.vObjectId "507f191e810c19729de860ea"), ("owner", Value.vObjectId "a1b2")]
      (by decide) (by decide)).1 (Value.vObjectId "507f191e810c19729de860ea") (by decide),
   (C5_amended_id_rename
      [("_id", Value.vObjectId "507f191e810c19729de860ea"), ("owner", Value.vObjectId "a1b2")]
      (by decide) (by decide)).2 "owner" "a1b2" (by decide) (by decide)⟩

/-! ### Claims C1, C2, C7: the seed routine -/

/-- **C1** (confirmed).  Seeding with an empty category collection appends
exactly the four literal category records, whose keys in order are
`icloud`, `frp`, `screen-lock`, `bootloop`; seeding with a non-empty
category collection inserts no category record. -/
theorem C1_seed_categories (d : DB) :
    (d.issuecategory = [] →
       (seedDB d).issuecategory = d.issuecategory ++ categoriesSeed ∧
       categoriesSeed.length = 4 ∧
       categoriesSeed.map (fun c => lookupField c "key") =
         [some (Value.vStr "icloud"), some (Value.vStr "frp"),
          some (Value.vStr "screen-lock"), some (Value.vStr "bootloop")]) ∧
    (d.issuecategory ≠ [] → (seedDB d).issuecategory = d.issuecategory) := by
  constructor
  · intro h
    refine ⟨?_, rfl, by decide⟩
    simp only [seedDB, h]
    split
    · split <;> rfl
    · next hfalse => simp at hfalse
  · intro h
    have hc : (d.issuecategory.length == 0) = false := by
      simp only [beq_eq_false_iff_ne, ne_eq, List.length_eq_zero]
      exact h
    simp only [seedDB, hc, Bool.false_eq_true, if_false]
    split <;> rfl

theorem C1_witness :
    ((seedDB { issuecategory := [], solutionguide := [] }).issuecategory =
         [] ++ categoriesSeed ∧
       categoriesSeed.length = 4 ∧
       categoriesSeed.map (fun c => lookupField c "key") =
         [some (Value.vStr "icloud"), some (Value.vStr "frp"),
          some (Value.vStr "screen-lock"), some (Value.vStr "bootloop")]) ∧
      (seedDB { issuecategory := [[("key", Value.vStr "x")]], solutionguide := [] }).issuecategory =
        [[("key", Value.vStr "x")]] :=
  ⟨(C1_seed_categories { issuecategory := [], solutionguide := [] }).1 rfl,
   (C1_seed_categories { issuecategory := [[("key", Value.vStr "x")]], solutionguide := [] }).2
     (by decide)⟩

/-- **C2** (confirmed).  Seeding with an empty guide collection appends
exactly the three literal guide records, each of whose `category_key` is
one of the four seeded category keys — whatever the state of the category
collection (the two seeding steps are independent). -/
theorem C2_seed_guides (d : DB) (h : d.solutionguide = []) :
    (seedDB d).solutionguide = d.solutionguide ++ guidesSeed ∧
    guidesSeed.length = 3 ∧
    ∀ g ∈ guidesSeed, lookupField g "category_key" ∈
      [some (Value.vStr "icloud"), some (Value.vStr "frp"),
       some (Value.vStr "screen-lock"), some (Value.vStr "bootloop")] := by
  refine ⟨?_, rfl, by decide⟩
  simp only [seedDB]
  split <;> simp [h]

theorem C2_witness :
    (seedDB { issuecategory := [[("key", Value.vStr "x")]], solutionguide := [] }).solutionguide =
        [] ++ guidesSeed ∧
      guidesSeed.length = 3 ∧
      ∀ g ∈ guidesSeed, lookupField g "category_key" ∈
        [some (Value.vStr "icloud"), some (Value.vStr "frp"),
         some (Value.vStr "screen-lock"), some (Value.vStr "bootloop")] :=
  C2_seed_guides { issuecategory := [[("key", Value.vStr "x")]], solutionguide := [] } rfl

/-- **C7** (confirmed).  With an uninitialized store handle the seed
operation fails with HTTP 500 "Database not available" before any count or
insert — no `ok` state is produced, so no collection changes; with an
initialized handle it never errors and performs exactly the two seeding
steps. -/
theorem C7_seed_unavailable :
    seed_sample_data none = Except.error (500, "Database not available") ∧
    ∀ d : DB, seed_sample_data (some d) = Except.ok (seedDB d) :=
  ⟨rfl, fun _ => rfl⟩

/-! ### Claims C6, C10: GET /api/guides -/

theorem valueBeq_eq_decide (a b : Value) : valueBeq a b = decide (a = b) := by
  by_cases h : a = b
  · rw [h, (valueBeq_iff b b).2 rfl]
    simp
  · have hne : valueBeq a b ≠ true := fun hc => h ((valueBeq_iff a b).1 hc)
    simp [h, Bool.eq_false_iff.2 hne]

theorem docMatches_singleton (d : Doc) (k : String) (v : Value) :
    docMatches d [(k, v)] = decide (lookupField d k = some v) := by
  simp only [docMatches, List.all_cons, List.all_nil, Bool.and_true]
  cases hl : lookupField d k with
  | none => simp
  | some w => simp [valueBeq_eq_decide]

/-- **C6** (refuted as stated).  With the empty string as `category_key`
the handler drops the filter (Python truthiness), so the request returns
every guide — including one whose `category_key` is `"icloud"`, not the
empty string. -/
theorem C6_counterexample :
    [("category_key", Value.vStr "icloud")] ∈
        list_guides [[("category_key", Value.vStr "icloud")]] (some "") ∧
      lookupField [("category_key", Value.vStr "icloud")] "category_key" ≠
        some (Value.vStr "") := by
  decide

/-- **C6** (amended).  For every *non-empty* `K`, `GET /api/guides` with
`category_key=K` returns exactly the serializations of the stored guides
whose `category_key` field equals `K`; with the parameter absent it
returns every stored guide serialized. -/
theorem C6_amended_filter (store : List Doc) (K : String) (hK : K ≠ "") :
    list_guides store (some K) =
      (store.filter
        (fun d => decide (lookupField d "category_key" = some (Value.vStr K)))).map _serialize ∧
    list_guides store none = store.map _serialize := by
  constructor
  · simp only [list_guides, get_documents, if_neg hK]
    congr 1
    apply List.filter_congr
    intro d _
    exact docMatches_singleton d "category_key" (Value.vStr K)
  · simp only [list_guides, get_documents, docMatches, List.all_nil]
    congr 1
    exact List.filter_true store

theorem C6_witness :
    (list_guides [[("category_key", Value.vStr "icloud")], [("category_key", Value.vStr "frp")]]
        (some "icloud") =
      ([[("category_key", Value.vStr "icloud")], [("category_key", Value.vStr "frp")]].filter
        (fun d => decide (lookupField d "category_key" = some (Value.vStr "icloud")))).map
          _serialize) ∧
    list_guides [[("category_key", Value.vStr "icloud")], [("category_key", Value.vStr "frp")]]
        none =
      [[("category_key", Value.vStr "icloud")], [("category_key", Value.vStr "frp")]].map
        _serialize :=
  C6_amended_filter _ "icloud" (by decide)

/-- **C10** (confirmed).  A `category_key` query parameter equal to the
empty string is treated exactly like an absent parameter: the filter is
empty and every stored guide is returned (serialized), not only those
whose `category_key` is the empty string. -/
theorem C10_empty_param (store : List Doc) :
    list_guides store (some "") = list_guides store none ∧
    list_guides store (some "") = store.map _serialize := by
  refine ⟨rfl, ?_⟩
  simp only [list_guides, get_documents, docMatches, List.all_nil]
  congr 1
  exact List.filter_true store

theorem C10_witness :
    (list_guides [[("category_key", Value.vStr "icloud")], [("category_key", Value.vStr "frp")]]
          (some "") =
        list_guides [[("category_key", Value.vStr "icloud")], [("category_key", Value.vStr "frp")]]
          none) ∧
      list_guides [[("category_key", Value.vStr "icloud")], [("category_key", Value.vStr "frp")]]
          (some "") =
        [[("category_key", Value.vStr "icloud")], [("category_key", Value.vStr "frp")]].map
          _serialize :=
  C10_empty_param
    [[("category_key", Value.vStr "icloud")], [("category_key", Value.vStr "frp")]]

/-! ### Claims C8, C9: GET /test -/

/-- **C8** (confirmed).  The diagnostic endpoint is a total function of the
store state: the backend check always reports running, an uninitialized
handle degrades to a status string, and a store exception raised by
`list_collection_names` degrades to a status string embedding the
stringified cause truncated to at most its first 50 characters. -/
theorem C8_test_never_raises (db : Option DBConn) (urlSet nameSet : Bool) :
    (test_database db urlSet nameSet).backend = "✅ Running" ∧
    (db = none →
      (test_database db urlSet nameSet).database = "⚠️  Available but not initialized") ∧
    (∀ nm e, db = some { name := nm, listCollectionNames := Except.error e } →
      (test_database db urlSet nameSet).database =
          "⚠️  Connected but Error: " ++ pyTrunc e 50 ∧
        (pyTrunc e 50).length ≤ 50) := by
  refine ⟨?_, ?_, ?_⟩
  · rcases db with _ | ⟨nm, lc⟩
    · rfl
    · cases lc <;> rfl
  · intro h
    subst h
    rfl
  · intro nm e h
    subst h
    refine ⟨rfl, ?_⟩
    show (e.toList.take 50).length ≤ 50
    exact List.length_take_le 50 e.toList

theorem C8_witness :
    (test_database (some { name := some "appdb", listCollectionNames := Except.error "boom" })
          true false).database =
        "⚠️  Connected but Error: " ++ pyTrunc "boom" 50 ∧
      (pyTrunc "boom" 50).length ≤ 50 :=
  (C8_test_never_raises
    (some { name := some "appdb", listCollectionNames := Except.error "boom" })
    true false).2.2 (some "appdb") "boom" rfl

/-- **C9** (confirmed).  When `list_collection_names` succeeds, the
diagnostic response reports exactly the first 10 collection names — never
more than 10, however many the store holds. -/
theorem C9_collections_truncated (nm : Option String) (cols : List String)
    (urlSet nameSet : Bool) :
    (test_database (some { name := nm, listCollectionNames := Except.ok cols })
        urlSet nameSet).collections = cols.take 10 ∧
    (test_database (some { name := nm, listCollectionNames := Except.ok cols })
        urlSet nameSet).collections.length ≤ 10 := by
  refine ⟨rfl, ?_⟩
  show (cols.take 10).length ≤ 10
  exact List.length_take_le 10 cols

theorem C9_witness :
    (test_database
        (some { name := none,
                listCollectionNames := Except.ok
                  ["c1", "c2", "c3", "c4", "c5", "c6", "c7", "c8", "c9", "c10", "c11", "c12"] })
        false true).collections =
      ["c1", "c2", "c3", "c4", "c5", "c6", "c7", "c8", "c9", "c10", "c11", "c12"].take 10 ∧
    (test_database
        (some { name := none,
                listCollectionNames := Except.ok
                  ["c1", "c2", "c3", "c4", "c5", "c6", "c7", "c8", "c9", "c10", "c11", "c12"] })
        false true).collections.length ≤ 10 :=
  C9_collections_truncated none
    ["c1", "c2", "c3", "c4", "c5", "c6", "c7", "c8", "c9", "c10", "c11", "c12"] false true

end MobileRepair
